import Mathlib

/-!
Verification of `ax/telemetry/scheduler.py`: the two telemetry records
`SchedulerCreatedRecord` and `SchedulerCompletedRecord`, their builders
`from_scheduler`, and their `flatten` methods.

The records are frozen Python dataclasses.  `flatten` converts a record to a
Python dict with `dataclasses.asdict` (insertion order = field declaration
order, nested dataclasses recursively converted to dicts), pops the nested
sub-record dicts, and splats everything into a single flat dict.

We model Python dicts as insertion-ordered association lists
`List (String × Value)`; `{**a, **b}` updates an existing key in place and
appends new keys at the end, exactly as Python does.  Fallible dict
operations (`pop`, splatting a non-dict) return `Option`.
-/

/-- Primitive (and, for `asdict` intermediates, nested-dict) Python values.
The records are documented to hold only numbers, strings, bools and `None`;
`dict` is the composite shape that `dataclasses.asdict` produces for nested
dataclasses.  The two `float` fields of `SchedulerCompletedRecord` are only
ever assigned the integer literal `-1` (Python dataclasses do not coerce), so
integer values suffice to represent every value this module constructs. -/
inductive Value where
  | int : Int → Value
  | str : String → Value
  | bool : Bool → Value
  | null : Value
  | dict : List (String × Value) → Value


/-- Returns `true` on a nested/composite (dict) value, `false` on scalars. -/
def Value.isComposite : Value → Bool
  | .dict _ => true
  | _ => false

/-- Keys of a dict, in insertion order. -/
def dictKeys (d : List (String × Value)) : List String :=
  d.map Prod.fst

/-- Python `d[k]` lookup: first entry with the given key (keys of a real
Python dict are unique, so "first" is "the" entry). -/
def dictGet : List (String × Value) → String → Option Value
  | [], _ => Option.none
  | (k2, v2) :: rest, k => if k = k2 then some v2 else dictGet rest k

/-- Removal of a key (the dict half of Python `d.pop(k)`): drops the first
entry with the given key. -/
def dictEraseKey : List (String × Value) → String → List (String × Value)
  | [], _ => []
  | (k2, v2) :: rest, k => if k = k2 then rest else (k2, v2) :: dictEraseKey rest k

/-- Python `d.pop(k)`: the value at `k` together with the dict without `k`;
`Option.none` models the `KeyError` raised when `k` is absent. -/
def dictPop (d : List (String × Value)) (k : String) :
    Option (Value × List (String × Value)) :=
  match dictGet d k with
  | Option.none => Option.none
  | some v => some (v, dictEraseKey d k)

/-- Python assignment `d[k] = v`: updates an existing entry in place (keeping
its position), otherwise appends the new entry at the end. -/
def dictInsert : List (String × Value) → String → Value → List (String × Value)
  | [], k, v => [(k, v)]
  | (k2, v2) :: rest, k, v =>
    if k = k2 then (k, v) :: rest else (k2, v2) :: dictInsert rest k v

/-- Python dict splat `{**a, **b}`: entries of `b` inserted into `a` in order,
so a key present in both takes `b`'s value (later merge wins). -/
def dictMerge (a b : List (String × Value)) : List (String × Value) :=
  b.foldl (fun acc p => dictInsert acc p.1 p.2) a

/-- A dict all of whose values are scalar (no nested/composite structure). -/
def scalarValued (d : List (String × Value)) : Prop :=
  ∀ p ∈ d, p.2.isComposite = false

instance (d : List (String × Value)) : Decidable (scalarValued d) :=
  inferInstanceAs (Decidable (∀ p ∈ d, p.2.isComposite = false))

/-- Well-formedness of a Python dict rendered as an association list: keys
are pairwise distinct. -/
def dictNodup (d : List (String × Value)) : Prop :=
  (dictKeys d).Nodup

instance (d : List (String × Value)) : Decidable (dictNodup d) :=
  inferInstanceAs (Decidable ((dictKeys d).Nodup))

/-- Modelled from the spec: the early/global stopping strategies are external
policy objects whose implementation is not part of this module; the module
records only their concrete class name, read by reflection
(`strategy.__class__.__name__`).  A strategy instance is therefore modelled
by that name. -/
structure StoppingStrategy where
  className : String


/-- Modelled from the spec: external `Experiment` collaborator.  This module
never inspects the experiment itself; it only passes it to the two external
record builders `ExperimentCreatedRecord.from_experiment` and
`ExperimentCompletedRecord.from_experiment`, whose outputs are records of
scalar fields.  The experiment is modelled by the field lists (field name,
field value, in declaration order) of those two records. -/
structure Experiment where
  created_record : List (String × Value)
  completed_record : List (String × Value)


/-- Modelled from the spec: external `GenerationStrategy` collaborator,
modelled by the field list of the record that the external builder
`GenerationStrategyCreatedRecord.from_generation_strategy` produces for it. -/
structure GenerationStrategy where
  created_record : List (String × Value)


/-- Modelled from the spec: external builder
`ExperimentCreatedRecord.from_experiment`. -/
def ExperimentCreatedRecord.from_experiment (e : Experiment) :
    List (String × Value) :=
  e.created_record

/-- Modelled from the spec: external builder
`ExperimentCompletedRecord.from_experiment`. -/
def ExperimentCompletedRecord.from_experiment (e : Experiment) :
    List (String × Value) :=
  e.completed_record

/-- Modelled from the spec: external builder
`GenerationStrategyCreatedRecord.from_generation_strategy`. -/
def GenerationStrategyCreatedRecord.from_generation_strategy
    (g : GenerationStrategy) : List (String × Value) :=
  g.created_record

/-- Modelled from the spec: the `SchedulerOptions` structure read by
`SchedulerCreatedRecord.from_scheduler` (total-trial cap, max pending
trials, batch size, optional stopping strategies). -/
structure SchedulerOptions where
  total_trials : Option Int
  max_pending_trials : Int
  batch_size : Option Int
  early_stopping_strategy : Option StoppingStrategy
  global_stopping_strategy : Option StoppingStrategy


/-- Modelled from the spec: the scheduler snapshot read by the two builders:
`experiment`, `generation_strategy`, `options`, and the two run-time error
counters `_num_metric_fetch_e_encountered` and `_num_trials_bad_due_to_err`. -/
structure Scheduler where
  experiment : Experiment
  generation_strategy : GenerationStrategy
  options : SchedulerOptions
  num_metric_fetch_e_encountered : Int
  num_trials_bad_due_to_err : Int


/-- The `SchedulerCreatedRecord` frozen dataclass, fields in declaration
order.  The two nested sub-records are external collaborators' records,
modelled as field lists. -/
structure SchedulerCreatedRecord where
  experiment_created_record : List (String × Value)
  generation_strategy_created_record : List (String × Value)
  scheduler_total_trials : Option Int
  scheduler_max_pending_trials : Int
  arms_per_trial : Int
  early_stopping_strategy_cls : Option String
  global_stopping_strategy_cls : Option String
  transformed_dimensionality : Int


/-- Python `x or d` for an optional integer `x`: `None` and `0` are falsy. -/
def pyOrInt : Option Int → Int → Int
  | Option.none, d => d
  | some n, d => if n = 0 then d else n

/-- `SchedulerCreatedRecord.from_scheduler`. -/
def SchedulerCreatedRecord.from_scheduler (scheduler : Scheduler) :
    SchedulerCreatedRecord :=
  { experiment_created_record :=
      ExperimentCreatedRecord.from_experiment scheduler.experiment
    generation_strategy_created_record :=
      GenerationStrategyCreatedRecord.from_generation_strategy
        scheduler.generation_strategy
    scheduler_total_trials := scheduler.options.total_trials
    scheduler_max_pending_trials := scheduler.options.max_pending_trials
    arms_per_trial := pyOrInt scheduler.options.batch_size 1
    early_stopping_strategy_cls :=
      match scheduler.options.early_stopping_strategy with
      | Option.none => Option.none
      | some strategy => some strategy.className
    global_stopping_strategy_cls :=
      match scheduler.options.global_stopping_strategy with
      | Option.none => Option.none
      | some strategy => some strategy.className
    transformed_dimensionality := -1 }

/-- An optional integer as a Python value (`None` or an int). -/
def optIntValue : Option Int → Value
  | Option.none => Value.null
  | some n => Value.int n

/-- An optional string as a Python value (`None` or a str). -/
def optStrValue : Option String → Value
  | Option.none => Value.null
  | some s => Value.str s

/-- `dataclasses.asdict` on a `SchedulerCreatedRecord`: entries in field
declaration order, nested dataclass fields rendered as nested dicts. -/
def SchedulerCreatedRecord.asdict (r : SchedulerCreatedRecord) :
    List (String × Value) :=
  [("experiment_created_record", Value.dict r.experiment_created_record),
   ("generation_strategy_created_record",
     Value.dict r.generation_strategy_created_record),
   ("scheduler_total_trials", optIntValue r.scheduler_total_trials),
   ("scheduler_max_pending_trials", Value.int r.scheduler_max_pending_trials),
   ("arms_per_trial", Value.int r.arms_per_trial),
   ("early_stopping_strategy_cls", optStrValue r.early_stopping_strategy_cls),
   ("global_stopping_strategy_cls", optStrValue r.global_stopping_strategy_cls),
   ("transformed_dimensionality", Value.int r.transformed_dimensionality)]

/-- `SchedulerCreatedRecord.flatten`: `asdict`, pop the two nested sub-record
dicts, then `{**self_dict, **experiment_dict, **generation_strategy_dict}`.
`Option.none` models the runtime errors Python could raise (a missing key on
`pop`, splatting a non-dict). -/
def SchedulerCreatedRecord.flatten (r : SchedulerCreatedRecord) :
    Option (List (String × Value)) :=
  match dictPop r.asdict "experiment_created_record" with
  | Option.none => Option.none
  | some (expVal, d1) =>
    match dictPop d1 "generation_strategy_created_record" with
    | Option.none => Option.none
    | some (gsVal, self_dict) =>
      match expVal, gsVal with
      | Value.dict expDict, Value.dict gsDict =>
        some (dictMerge (dictMerge self_dict expDict) gsDict)
      | _, _ => Option.none

/-- The `SchedulerCompletedRecord` frozen dataclass, fields in declaration
order.  `best_point_quality` and `model_fit_quality` are annotated `float`
in the source but only ever hold the integer sentinel `-1`. -/
structure SchedulerCompletedRecord where
  experiment_completed_record : List (String × Value)
  best_point_quality : Int
  model_fit_quality : Int
  num_metric_fetch_e_encountered : Int
  num_trials_bad_due_to_err : Int


/-- `SchedulerCompletedRecord.from_scheduler`. -/
def SchedulerCompletedRecord.from_scheduler (scheduler : Scheduler) :
    SchedulerCompletedRecord :=
  { experiment_completed_record :=
      ExperimentCompletedRecord.from_experiment scheduler.experiment
    best_point_quality := -1
    model_fit_quality := -1
    num_metric_fetch_e_encountered := scheduler.num_metric_fetch_e_encountered
    num_trials_bad_due_to_err := scheduler.num_trials_bad_due_to_err }

/-- `dataclasses.asdict` on a `SchedulerCompletedRecord`. -/
def SchedulerCompletedRecord.asdict (r : SchedulerCompletedRecord) :
    List (String × Value) :=
  [("experiment_completed_record", Value.dict r.experiment_completed_record),
   ("best_point_quality", Value.int r.best_point_quality),
   ("model_fit_quality", Value.int r.model_fit_quality),
   ("num_metric_fetch_e_encountered", Value.int r.num_metric_fetch_e_encountered),
   ("num_trials_bad_due_to_err", Value.int r.num_trials_bad_due_to_err)]

/-- `SchedulerCompletedRecord.flatten`: `asdict`, pop the nested sub-record
dict, then `{**self_dict, **experiment_dict}`. -/
def SchedulerCompletedRecord.flatten (r : SchedulerCompletedRecord) :
    Option (List (String × Value)) :=
  match dictPop r.asdict "experiment_completed_record" with
  | Option.none => Option.none
  | some (expVal, self_dict) =>
    match expVal with
    | Value.dict expDict => some (dictMerge self_dict expDict)
    | _ => Option.none

/-- State-passing reading of the `flatten` method: the receiver after the
call together with the returned dict.  The method body performs no write to
`self` (the dataclass is frozen and every statement only builds new dicts),
so the translated receiver is returned unchanged. -/
def SchedulerCreatedRecord.flattenSt (r : SchedulerCreatedRecord) :
    SchedulerCreatedRecord × Option (List (String × Value)) :=
  (r, r.flatten)

/-- State-passing reading of `SchedulerCompletedRecord.flatten`; the body
performs no write to `self`. -/
def SchedulerCompletedRecord.flattenSt (r : SchedulerCompletedRecord) :
    SchedulerCompletedRecord × Option (List (String × Value)) :=
  (r, r.flatten)

/-- Scalar (non-nested) field names of `SchedulerCreatedRecord`, in
declaration order. -/
def createdScalarFields : List String :=
  ["scheduler_total_trials", "scheduler_max_pending_trials", "arms_per_trial",
   "early_stopping_strategy_cls", "global_stopping_strategy_cls",
   "transformed_dimensionality"]

/-- Scalar (non-nested) field names of `SchedulerCompletedRecord`, in
declaration order. -/
def completedScalarFields : List String :=
  ["best_point_quality", "model_fit_quality",
   "num_metric_fetch_e_encountered", "num_trials_bad_due_to_err"]

/-- The outer-scalar-fields dict left over after `flatten` pops the nested
sub-records from `asdict` of a `SchedulerCreatedRecord`. -/
def createdSelfDict (r : SchedulerCreatedRecord) : List (String × Value) :=
  [("scheduler_total_trials", optIntValue r.scheduler_total_trials),
   ("scheduler_max_pending_trials", Value.int r.scheduler_max_pending_trials),
   ("arms_per_trial", Value.int r.arms_per_trial),
   ("early_stopping_strategy_cls", optStrValue r.early_stopping_strategy_cls),
   ("global_stopping_strategy_cls", optStrValue r.global_stopping_strategy_cls),
   ("transformed_dimensionality", Value.int r.transformed_dimensionality)]

/-- The outer-scalar-fields dict left over after `flatten` pops the nested
sub-record from `asdict` of a `SchedulerCompletedRecord`. -/
def completedSelfDict (r : SchedulerCompletedRecord) : List (String × Value) :=
  [("best_point_quality", Value.int r.best_point_quality),
   ("model_fit_quality", Value.int r.model_fit_quality),
   ("num_metric_fetch_e_encountered", Value.int r.num_metric_fetch_e_encountered),
   ("num_trials_bad_due_to_err", Value.int r.num_trials_bad_due_to_err)]

/-- A concrete experiment whose external builders produce small scalar
records; used to instantiate the theorems below. -/
def sampleExperiment : Experiment :=
  { created_record :=
      [("experiment_name", Value.str "exp"), ("num_metrics", Value.int 2)]
    completed_record := [("num_completed_trials", Value.int 7)] }

/-- A concrete generation strategy; used to instantiate the theorems below. -/
def sampleGenerationStrategy : GenerationStrategy :=
  { created_record := [("num_generation_steps", Value.int 3)] }

/-- A concrete scheduler snapshot with `total_trials = 100`,
`max_pending_trials = 10`, no batch size and no stopping strategies. -/
def sampleScheduler : Scheduler :=
  { experiment := sampleExperiment
    generation_strategy := sampleGenerationStrategy
    options :=
      { total_trials := some 100
        max_pending_trials := 10
        batch_size := Option.none
        early_stopping_strategy := Option.none
        global_stopping_strategy := Option.none }
    num_metric_fetch_e_encountered := 1
    num_trials_bad_due_to_err := 2 }

/-- A concrete scheduler snapshot with `batch_size = 5` and a percentile
early-stopping strategy configured. -/
def sampleSchedulerBatch5 : Scheduler :=
  { experiment := sampleExperiment
    generation_strategy := sampleGenerationStrategy
    options :=
      { total_trials := some 100
        max_pending_trials := 10
        batch_size := some 5
        early_stopping_strategy := some ⟨"PercentileEarlyStoppingStrategy"⟩
        global_stopping_strategy := Option.none }
    num_metric_fetch_e_encountered := 0
    num_trials_bad_due_to_err := 0 }

/-- A concrete scheduler snapshot whose options violate the documented
bounds: `max_pending_trials = 0` and a negative `batch_size`. -/
def badOptionsScheduler : Scheduler :=
  { experiment := sampleExperiment
    generation_strategy := sampleGenerationStrategy
    options :=
      { total_trials := Option.none
        max_pending_trials := 0
        batch_size := some (-3)
        early_stopping_strategy := Option.none
        global_stopping_strategy := Option.none }
    num_metric_fetch_e_encountered := 0
    num_trials_bad_due_to_err := 0 }

theorem created_flatten_eq (r : SchedulerCreatedRecord) :
    r.flatten =
      some (dictMerge (dictMerge (createdSelfDict r) r.experiment_created_record)
        r.generation_strategy_created_record) := by
  rfl

theorem completed_flatten_eq (r : SchedulerCompletedRecord) :
    r.flatten =
      some (dictMerge (completedSelfDict r) r.experiment_completed_record) := by
  rfl

theorem dictKeys_nil : dictKeys [] = [] := rfl

theorem dictKeys_cons (q : String × Value) (rest : List (String × Value)) :
    dictKeys (q :: rest) = q.1 :: dictKeys rest := rfl

theorem dictMerge_nil (a : List (String × Value)) : dictMerge a [] = a := rfl

theorem dictMerge_cons (a : List (String × Value)) (q : String × Value)
    (b : List (String × Value)) :
    dictMerge a (q :: b) = dictMerge (dictInsert a q.1 q.2) b := rfl

theorem dictGet_dictInsert_self (a : List (String × Value)) (k : String)
    (v : Value) : dictGet (dictInsert a k v) k = some v := by
  induction a with
  | nil => simp [dictInsert, dictGet]
  | cons p rest ih =>
    obtain ⟨k2, v2⟩ := p
    by_cases h : k = k2 <;> simp [dictInsert, dictGet, h, ih]

theorem dictGet_dictInsert_other (a : List (String × Value)) (k k' : String)
    (v : Value) (h : k' ≠ k) : dictGet (dictInsert a k v) k' = dictGet a k' := by
  induction a with
  | nil => simp [dictInsert, dictGet, h]
  | cons p rest ih =>
    obtain ⟨k2, v2⟩ := p
    by_cases h2 : k = k2
    · subst h2
      simp [dictInsert, dictGet, h]
    · simp [dictInsert, dictGet, h2, ih]

theorem dictGet_eq_none_of_not_mem (a : List (String × Value)) (k : String)
    (h : k ∉ dictKeys a) : dictGet a k = Option.none := by
  induction a with
  | nil => rfl
  | cons p rest ih =>
    simp [dictKeys] at h
    simp [dictGet, h.1, ih (by simp [dictKeys, h.2])]

theorem mem_dictKeys_dictInsert (a : List (String × Value)) (k k' : String)
    (v : Value) :
    k' ∈ dictKeys (dictInsert a k v) ↔ k' ∈ dictKeys a ∨ k' = k := by
  induction a with
  | nil => simp [dictInsert, dictKeys]
  | cons p rest ih =>
    obtain ⟨k2, v2⟩ := p
    by_cases h : k = k2
    · subst h
      simp [dictInsert, dictKeys_cons, List.mem_cons]
      tauto
    · simp only [dictInsert, if_neg h, dictKeys_cons, List.mem_cons, ih]
      tauto

theorem mem_dictKeys_dictMerge (b a : List (String × Value)) (k : String) :
    k ∈ dictKeys (dictMerge a b) ↔ k ∈ dictKeys a ∨ k ∈ dictKeys b := by
  induction b generalizing a with
  | nil => simp [dictMerge, dictKeys]
  | cons q rest ih =>
    rw [dictMerge_cons, ih, mem_dictKeys_dictInsert]
    simp [dictKeys]
    tauto

theorem dictGet_dictMerge (b a : List (String × Value)) (k : String)
    (hb : dictNodup b) :
    dictGet (dictMerge a b) k =
      if k ∈ dictKeys b then dictGet b k else dictGet a k := by
  induction b generalizing a with
  | nil => simp [dictMerge, dictKeys]
  | cons q rest ih =>
    obtain ⟨k2, v2⟩ := q
    have hb' : dictNodup rest := by
      have := hb
      simp [dictNodup, dictKeys] at this ⊢
      exact this.2
    have hk2 : k2 ∉ dictKeys rest := by
      have := hb
      simp [dictNodup, dictKeys] at this
      simpa [dictKeys] using this.1
    rw [dictMerge_cons, ih _ hb']
    by_cases h : k = k2
    · subst h
      rw [if_neg hk2, if_pos (by simp [dictKeys_cons])]
      simp [dictGet, dictGet_dictInsert_self]
    · rw [dictGet_dictInsert_other _ _ _ _ h, dictKeys_cons]
      simp [dictGet, h, List.mem_cons]

theorem mem_dictInsert (a : List (String × Value)) (k : String) (v : Value)
    (p : String × Value) (hp : p ∈ dictInsert a k v) : p ∈ a ∨ p = (k, v) := by
  induction a with
  | nil =>
    simp [dictInsert] at hp
    simp [hp]
  | cons q rest ih =>
    obtain ⟨k2, v2⟩ := q
    by_cases h : k = k2
    · subst h
      simp [dictInsert] at hp
      rcases hp with h1 | h1
      · right
        simp [h1]
      · left
        simp [h1]
    · simp [dictInsert, h] at hp
      rcases hp with h1 | h1
      · left
        simp [h1]
      · rcases ih h1 with h2 | h2
        · left
          simp [h2]
        · right
          exact h2

theorem mem_dictMerge (b a : List (String × Value)) (p : String × Value)
    (hp : p ∈ dictMerge a b) : p ∈ a ∨ p ∈ b := by
  induction b generalizing a with
  | nil => exact Or.inl hp
  | cons q rest ih =>
    rw [dictMerge_cons] at hp
    rcases ih _ hp with h | h
    · rcases mem_dictInsert _ _ _ _ h with h2 | h2
      · exact Or.inl h2
      · right
        simp [h2]
    · exact Or.inr (List.mem_cons_of_mem _ h)

theorem scalarValued_dictMerge (a b : List (String × Value))
    (ha : scalarValued a) (hb : scalarValued b) :
    scalarValued (dictMerge a b) := by
  intro p hp
  rcases mem_dictMerge b a p hp with h | h
  · exact ha p h
  · exact hb p h

theorem isComposite_optIntValue (o : Option Int) :
    (optIntValue o).isComposite = false := by
  cases o <;> rfl

theorem isComposite_optStrValue (o : Option String) :
    (optStrValue o).isComposite = false := by
  cases o <;> rfl

theorem scalarValued_createdSelfDict (r : SchedulerCreatedRecord) :
    scalarValued (createdSelfDict r) := by
  intro p hp
  simp [createdSelfDict] at hp
  rcases hp with h | h | h | h | h | h <;> subst h <;>
    first
      | rfl
      | exact isComposite_optIntValue _
      | exact isComposite_optStrValue _

theorem scalarValued_completedSelfDict (r : SchedulerCompletedRecord) :
    scalarValued (completedSelfDict r) := by
  intro p hp
  simp [completedSelfDict] at hp
  rcases hp with h | h | h | h <;> subst h <;> simp [Value.isComposite]

/-- C3: `from_scheduler` sets `arms_per_trial` to `1` when the scheduler's
`options.batch_size` is unset (`None`) or zero, and to `options.batch_size`
otherwise (`batch_size or 1` in the source: `None` and `0` are falsy). -/
theorem arms_per_trial_spec (s : Scheduler) :
    ((s.options.batch_size = Option.none ∨ s.options.batch_size = some 0) →
      (SchedulerCreatedRecord.from_scheduler s).arms_per_trial = 1) ∧
    (∀ n : Int, s.options.batch_size = some n → n ≠ 0 →
      (SchedulerCreatedRecord.from_scheduler s).arms_per_trial = n) := by
  constructor
  · rintro (h | h) <;> simp [SchedulerCreatedRecord.from_scheduler, pyOrInt, h]
  · intro n hn hnz
    simp [SchedulerCreatedRecord.from_scheduler, pyOrInt, hn, hnz]

/-- Witness for C3 at concrete inputs: `batch_size = None` yields
`arms_per_trial = 1`, and `batch_size = 5` yields `arms_per_trial = 5`. -/
theorem arms_per_trial_spec_witness :
    (SchedulerCreatedRecord.from_scheduler sampleScheduler).arms_per_trial = 1 ∧
    (SchedulerCreatedRecord.from_scheduler sampleSchedulerBatch5).arms_per_trial
      = 5 :=
  ⟨(arms_per_trial_spec sampleScheduler).1 (Or.inl rfl),
   (arms_per_trial_spec sampleSchedulerBatch5).2 5 rfl (by decide)⟩

/-- C4: `early_stopping_strategy_cls` (and likewise
`global_stopping_strategy_cls`) is `None` exactly when no corresponding
strategy is configured on the scheduler's options, and otherwise is the
strategy instance's concrete class name; a missing optional strategy is
handled, never an error. -/
theorem stopping_strategy_cls_spec (s : Scheduler) :
    ((SchedulerCreatedRecord.from_scheduler s).early_stopping_strategy_cls =
      Option.map StoppingStrategy.className s.options.early_stopping_strategy) ∧
    ((SchedulerCreatedRecord.from_scheduler s).early_stopping_strategy_cls =
        Option.none ↔ s.options.early_stopping_strategy = Option.none) ∧
    ((SchedulerCreatedRecord.from_scheduler s).global_stopping_strategy_cls =
      Option.map StoppingStrategy.className s.options.global_stopping_strategy) ∧
    ((SchedulerCreatedRecord.from_scheduler s).global_stopping_strategy_cls =
        Option.none ↔ s.options.global_stopping_strategy = Option.none) := by
  obtain ⟨e, g, ⟨tt, mp, bs, es, gs⟩, n1, n2⟩ := s
  cases es <;> cases gs <;> simp [SchedulerCreatedRecord.from_scheduler]

/-- C5: the built records carry the fixed placeholder sentinels
`transformed_dimensionality = -1`, `best_point_quality = -1` and
`model_fit_quality = -1` for every input scheduler. -/
theorem placeholder_sentinels (s : Scheduler) :
    (SchedulerCreatedRecord.from_scheduler s).transformed_dimensionality = -1 ∧
    (SchedulerCompletedRecord.from_scheduler s).best_point_quality = -1 ∧
    (SchedulerCompletedRecord.from_scheduler s).model_fit_quality = -1 :=
  ⟨rfl, rfl, rfl⟩

/-- C6: `SchedulerCompletedRecord.from_scheduler` copies the scheduler's two
error counters verbatim, with no validation, clamping or transformation, for
every integer value. -/
theorem counters_copied_verbatim (s : Scheduler) :
    (SchedulerCompletedRecord.from_scheduler s).num_metric_fetch_e_encountered
      = s.num_metric_fetch_e_encountered ∧
    (SchedulerCompletedRecord.from_scheduler s).num_trials_bad_due_to_err
      = s.num_trials_bad_due_to_err :=
  ⟨rfl, rfl⟩

/-- C8: building a record is deterministic on an unchanged snapshot: two
calls of `from_scheduler` on the same scheduler value yield structurally
equal records (structure equality in this model is exactly field-by-field
equality), for both record types. -/
theorem from_scheduler_deterministic (s : Scheduler) :
    SchedulerCreatedRecord.from_scheduler s =
      SchedulerCreatedRecord.from_scheduler s ∧
    SchedulerCompletedRecord.from_scheduler s =
      SchedulerCompletedRecord.from_scheduler s :=
  ⟨rfl, rfl⟩

/-- C9: flattening is total: for every scheduler, `flatten` on the records
built by `from_scheduler` succeeds and returns a mapping (it never hits the
fallible cases, a `pop` of a missing key or a splat of a non-dict). -/
theorem flatten_total (s : Scheduler) :
    ((SchedulerCreatedRecord.from_scheduler s).flatten).isSome = true ∧
    ((SchedulerCompletedRecord.from_scheduler s).flatten).isSome = true := by
  rw [created_flatten_eq, completed_flatten_eq]
  exact ⟨rfl, rfl⟩

/-- C10: `flatten` is read-only with respect to its record: in the
state-passing reading of the method, the receiver after the call is the
original record (every field unchanged), and two successive calls on the
same record return equal mappings; for both record types. -/
theorem flatten_frame (r : SchedulerCreatedRecord)
    (q : SchedulerCompletedRecord) :
    (r.flattenSt.1 = r ∧ (r.flattenSt.1).flattenSt.2 = r.flattenSt.2) ∧
    (q.flattenSt.1 = q ∧ (q.flattenSt.1).flattenSt.2 = q.flattenSt.2) :=
  ⟨⟨rfl, rfl⟩, ⟨rfl, rfl⟩⟩

/-- C7 counterexample: the claim fails for arbitrary input schedulers.  A
scheduler whose options carry `max_pending_trials = 0` and
`batch_size = -3` is copied verbatim by the builder, so the built record has
`scheduler_max_pending_trials = 0` and `arms_per_trial = -3`, violating both
claimed lower bounds. -/
theorem created_record_bounds_counterexample :
    ¬(1 ≤ (SchedulerCreatedRecord.from_scheduler
            badOptionsScheduler).scheduler_max_pending_trials ∧
      1 ≤ (SchedulerCreatedRecord.from_scheduler
            badOptionsScheduler).arms_per_trial) := by
  decide

/-- C7 (amended): every `SchedulerCreatedRecord` produced by
`from_scheduler` satisfies `scheduler_max_pending_trials ≥ 1` and
`arms_per_trial ≥ 1`, provided the input scheduler's options satisfy
`max_pending_trials ≥ 1` and a set `batch_size` is nonnegative (the builder
copies `max_pending_trials` verbatim and maps a negative `batch_size` to
itself). -/
theorem created_record_bounds (s : Scheduler)
    (hmp : 1 ≤ s.options.max_pending_trials)
    (hbs : ∀ n : Int, s.options.batch_size = some n → 0 ≤ n) :
    1 ≤ (SchedulerCreatedRecord.from_scheduler s).scheduler_max_pending_trials
      ∧ 1 ≤ (SchedulerCreatedRecord.from_scheduler s).arms_per_trial := by
  refine ⟨hmp, ?_⟩
  show 1 ≤ pyOrInt s.options.batch_size 1
  cases h : s.options.batch_size with
  | none => simp [pyOrInt]
  | some n =>
    have hn := hbs n h
    by_cases hz : n = 0
    · simp [pyOrInt, hz]
    · simp [pyOrInt, hz]
      omega

/-- Witness for the amended C7 at a concrete input: `sampleSchedulerBatch5`
has `max_pending_trials = 10 ≥ 1` and `batch_size = 5 ≥ 0`, and the built
record satisfies both bounds. -/
theorem created_record_bounds_witness :
    1 ≤ (SchedulerCreatedRecord.from_scheduler
          sampleSchedulerBatch5).scheduler_max_pending_trials ∧
    1 ≤ (SchedulerCreatedRecord.from_scheduler
          sampleSchedulerBatch5).arms_per_trial :=
  created_record_bounds sampleSchedulerBatch5 (by decide)
    (by intro n hn; injection hn with h; subst h; decide)

/-- C1: for every record produced by the builders — `SchedulerCreatedRecord`
or `SchedulerCompletedRecord` — `flatten` returns a mapping whose key set is
exactly the union of the record's own scalar field names and the field names
of each nested sub-record (the nested-record keys themselves are removed),
and, the nested sub-records being scalar-valued as the external collaborator
records are, no value in the mapping is a nested/composite structure. -/
theorem flatten_keys_union_and_scalar (s : Scheduler)
    (hexp : scalarValued s.experiment.created_record)
    (hgs : scalarValued s.generation_strategy.created_record)
    (hexpc : scalarValued s.experiment.completed_record) :
    (∀ m, (SchedulerCreatedRecord.from_scheduler s).flatten = some m →
      (∀ k, k ∈ dictKeys m ↔
        (k ∈ createdScalarFields ∨
          k ∈ dictKeys s.experiment.created_record ∨
          k ∈ dictKeys s.generation_strategy.created_record)) ∧
      scalarValued m) ∧
    (∀ m, (SchedulerCompletedRecord.from_scheduler s).flatten = some m →
      (∀ k, k ∈ dictKeys m ↔
        (k ∈ completedScalarFields ∨
          k ∈ dictKeys s.experiment.completed_record)) ∧
      scalarValued m) := by
  constructor
  · intro m hm
    rw [created_flatten_eq] at hm
    replace hm := Option.some.inj hm
    subst hm
    have hk1 : dictKeys (createdSelfDict
        (SchedulerCreatedRecord.from_scheduler s)) = createdScalarFields := rfl
    have he : (SchedulerCreatedRecord.from_scheduler s).experiment_created_record
        = s.experiment.created_record := rfl
    have hg : (SchedulerCreatedRecord.from_scheduler
        s).generation_strategy_created_record
        = s.generation_strategy.created_record := rfl
    constructor
    · intro k
      rw [mem_dictKeys_dictMerge, mem_dictKeys_dictMerge, hk1, he, hg]
      tauto
    · exact scalarValued_dictMerge _ _
        (scalarValued_dictMerge _ _ (scalarValued_createdSelfDict _) hexp) hgs
  · intro m hm
    rw [completed_flatten_eq] at hm
    replace hm := Option.some.inj hm
    subst hm
    have hk1 : dictKeys (completedSelfDict
        (SchedulerCompletedRecord.from_scheduler s)) = completedScalarFields :=
      rfl
    have he : (SchedulerCompletedRecord.from_scheduler
        s).experiment_completed_record = s.experiment.completed_record := rfl
    constructor
    · intro k
      rw [mem_dictKeys_dictMerge, hk1, he]
    · exact scalarValued_dictMerge _ _ (scalarValued_completedSelfDict _) hexpc

/-- Witness for C1 at the concrete `sampleScheduler`: its nested collaborator
records are scalar-valued, and the instantiated conclusion holds for both
built records. -/
theorem flatten_keys_union_and_scalar_witness :
    scalarValued sampleScheduler.experiment.created_record ∧
    scalarValued sampleScheduler.generation_strategy.created_record ∧
    scalarValued sampleScheduler.experiment.completed_record ∧
    (∀ m, (SchedulerCreatedRecord.from_scheduler sampleScheduler).flatten
        = some m →
      (∀ k, k ∈ dictKeys m ↔
        (k ∈ createdScalarFields ∨
          k ∈ dictKeys sampleScheduler.experiment.created_record ∨
          k ∈ dictKeys sampleScheduler.generation_strategy.created_record)) ∧
      scalarValued m) ∧
    (∀ m, (SchedulerCompletedRecord.from_scheduler sampleScheduler).flatten
        = some m →
      (∀ k, k ∈ dictKeys m ↔
        (k ∈ completedScalarFields ∨
          k ∈ dictKeys sampleScheduler.experiment.completed_record)) ∧
      scalarValued m) :=
  ⟨by decide, by decide, by decide,
   (flatten_keys_union_and_scalar sampleScheduler (by decide) (by decide)
     (by decide)).1,
   (flatten_keys_union_and_scalar sampleScheduler (by decide) (by decide)
     (by decide)).2⟩

/-- C2: in `flatten`, fields are merged in the order: outer scalar fields
first, then each nested sub-record in declaration order (for the created
record, `experiment_created_record` then
`generation_strategy_created_record`); whenever a key occurs in both an
earlier and a later merged set, the later-merged nested record's value
overwrites the earlier one.  Each nested sub-record is a Python dict, so its
keys are pairwise distinct. -/
theorem flatten_merge_order (r : SchedulerCreatedRecord)
    (q : SchedulerCompletedRecord)
    (h1 : dictNodup r.experiment_created_record)
    (h2 : dictNodup r.generation_strategy_created_record)
    (h3 : dictNodup q.experiment_completed_record) :
    (∀ m, r.flatten = some m → ∀ k, dictGet m k =
      if k ∈ dictKeys r.generation_strategy_created_record then
        dictGet r.generation_strategy_created_record k
      else if k ∈ dictKeys r.experiment_created_record then
        dictGet r.experiment_created_record k
      else dictGet (createdSelfDict r) k) ∧
    (∀ m, q.flatten = some m → ∀ k, dictGet m k =
      if k ∈ dictKeys q.experiment_completed_record then
        dictGet q.experiment_completed_record k
      else dictGet (completedSelfDict q) k) := by
  constructor
  · intro m hm k
    rw [created_flatten_eq] at hm
    replace hm := Option.some.inj hm
    subst hm
    rw [dictGet_dictMerge _ _ _ h2, dictGet_dictMerge _ _ _ h1]
  · intro m hm k
    rw [completed_flatten_eq] at hm
    replace hm := Option.some.inj hm
    subst hm
    rw [dictGet_dictMerge _ _ _ h3]

/-- Witness for C2 at the concrete records built from `sampleScheduler`:
their nested sub-records have pairwise-distinct keys, and the instantiated
merge-order conclusion holds for both `flatten` results. -/
theorem flatten_merge_order_witness :
    dictNodup (SchedulerCreatedRecord.from_scheduler
      sampleScheduler).experiment_created_record ∧
    dictNodup (SchedulerCreatedRecord.from_scheduler
      sampleScheduler).generation_strategy_created_record ∧
    dictNodup (SchedulerCompletedRecord.from_scheduler
      sampleScheduler).experiment_completed_record ∧
    (∀ m, (SchedulerCreatedRecord.from_scheduler sampleScheduler).flatten
        = some m → ∀ k, dictGet m k =
      if k ∈ dictKeys (SchedulerCreatedRecord.from_scheduler
          sampleScheduler).generation_strategy_created_record then
        dictGet (SchedulerCreatedRecord.from_scheduler
          sampleScheduler).generation_strategy_created_record k
      else if k ∈ dictKeys (SchedulerCreatedRecord.from_scheduler
          sampleScheduler).experiment_created_record then
        dictGet (SchedulerCreatedRecord.from_scheduler
          sampleScheduler).experiment_created_record k
      else dictGet (createdSelfDict (SchedulerCreatedRecord.from_scheduler
        sampleScheduler)) k) ∧
    (∀ m, (SchedulerCompletedRecord.from_scheduler sampleScheduler).flatten
        = some m → ∀ k, dictGet m k =
      if k ∈ dictKeys (SchedulerCompletedRecord.from_scheduler
          sampleScheduler).experiment_completed_record then
        dictGet (SchedulerCompletedRecord.from_scheduler
          sampleScheduler).experiment_completed_record k
      else dictGet (completedSelfDict (SchedulerCompletedRecord.from_scheduler
        sampleScheduler)) k) :=
  ⟨by decide, by decide, by decide,
   (flatten_merge_order (SchedulerCreatedRecord.from_scheduler sampleScheduler)
     (SchedulerCompletedRecord.from_scheduler sampleScheduler)
     (by decide) (by decide) (by decide)).1,
   (flatten_merge_order (SchedulerCreatedRecord.from_scheduler sampleScheduler)
     (SchedulerCompletedRecord.from_scheduler sampleScheduler)
     (by decide) (by decide) (by decide)).2⟩
